import Mathlib

/-!
# Conversion pipeline of `pkg/converter/converter.go`

A shallow embedding of `LocalConverter.Convert` and `LocalConverter.Dispatch`.

The two functions only sequence calls into collaborators whose code lives
outside the file (lease manager, rule resolver, content provider, driver,
worker queue, metrics recorder).  The collaborators are therefore fields of
the record `LocalConverter`: each is an arbitrary function on an external
world state `σ`, so a statement quantified over `LocalConverter σ` holds for
every behaviour of the collaborators.

A Go call returning `(value, error)` is an `Except GoError value` paired with
the new world state (on a nil error the value is present), a call returning
only `error` is an `Option GoError` (`none` is Go's `nil`).

Every run also yields the list of collaborator calls that the function under
study made itself, in program order (`Run.calls`); calls that a collaborator makes
in turn (the worker running a submitted job) only show in the world state.
Collaborators return; a panic inside a collaborator is outside the model.
-/

namespace Converter

/-! ## Errors (`error`, `github.com/pkg/errors`, `errors.Is`) -/

/-- Go error values: a sentinel made by `errors.New`, identified by its name,
or an error wrapped with a message by `errors.Wrap`. -/
inductive GoError where
  | sentinel (name : String) : GoError
  | wrap (cause : GoError) (message : String) : GoError
  deriving DecidableEq, Repr

/-- Modelled from the spec: the sentinel `errdefs.ErrAlreadyConverted`, declared in
package `errdefs` outside the file; the resolver's "already converted" signal. -/
def ErrAlreadyConverted : GoError := GoError.sentinel "ErrAlreadyConverted"

/-- The call `errors.Wrap(err, message)`: nil for a nil error, otherwise a new error
whose cause is `err`. -/
def errorsWrap (err : Option GoError) (message : String) : Option GoError :=
  match err with
  | none => none
  | some e => some (GoError.wrap e message)

/-- The call `errors.Is(err, target)`: `err` equals `target`, or an error in the
unwrap chain of `err` does. -/
def errorsIs : GoError → GoError → Bool
  | GoError.sentinel n, target => decide (GoError.sentinel n = target)
  | GoError.wrap cause message, target =>
      decide (GoError.wrap cause message = target) || errorsIs cause target

/-! ## Values passed between the collaborators -/

/-- Image references are strings. -/
abbrev Reference := String

/-- A `context.Context`: the background context or a context derived from a parent
(as the lease manager does to attach the lease). -/
inductive Context where
  | background : Context
  | derived (parent : Context) (label : String) : Context
  deriving DecidableEq, Repr

/-- Handle of a `content.Provider` built by `content.NewLocalProvider`. -/
structure Provider where
  id : Nat
  deriving DecidableEq, Repr

/-- The `ocispec.Descriptor` that the driver returns for the converted image. -/
structure Descriptor where
  digest : String
  deriving DecidableEq, Repr

/-- A Go closure `func() error` acting on the world state. -/
abbrev Job (σ : Type) := σ → Option GoError × σ

/-- The release function `done` returned by `WithLease`: `func(context.Context) error`. -/
abbrev Done (σ : Type) := Context → σ → Option GoError × σ

/-! ## Collaborator calls -/

/-- One collaborator call, with the arguments it was given. -/
inductive Call where
  | withLease (ctx : Context) : Call
  | done (ctx : Context) : Call
  | ruleMap (source : Reference) : Call
  | newLocalProvider : Call
  | pull (content : Provider) (ctx : Context) (source : Reference) : Call
  | driverConvert (ctx : Context) (content : Provider) : Call
  | push (content : Provider) (ctx : Context) (desc : Descriptor) (target : Reference) : Call
  | workerDispatch : Call
  deriving DecidableEq, Repr

/-- Which collaborator operation a call belongs to. -/
inductive Kind where
  | lease | release | map | provider | pull | convert | push | dispatch
  deriving DecidableEq, Repr

/-- The operation of a call. -/
def Call.kind : Call → Kind
  | Call.withLease _ => Kind.lease
  | Call.done _ => Kind.release
  | Call.ruleMap _ => Kind.map
  | Call.newLocalProvider => Kind.provider
  | Call.pull _ _ _ => Kind.pull
  | Call.driverConvert _ _ => Kind.convert
  | Call.push _ _ _ _ => Kind.push
  | Call.workerDispatch => Kind.dispatch

/-- The four stages that follow rule resolution. -/
def Kind.isStage : Kind → Bool
  | Kind.provider => true
  | Kind.pull => true
  | Kind.convert => true
  | Kind.push => true
  | _ => false

/-- The pipeline operations made under the lease: rule resolution and the four stages. -/
def Kind.isPipeline : Kind → Bool
  | Kind.map => true
  | k => k.isStage

/-- The outcome of running a function of the file: the returned `error`, the world
state afterwards and the collaborator calls made, in order. -/
structure Run (σ : Type) where
  err : Option GoError
  state : σ
  calls : List Call

/-- A run seen as the result of a closure `func() error`. -/
def Run.toJob {σ : Type} (r : Run σ) : Option GoError × σ := (r.err, r.state)

/-- The operations of the calls of a run, in order. -/
def Run.kinds {σ : Type} (r : Run σ) : List Kind := r.calls.map Call.kind

/-- How many times a run made a call of the given operation. -/
def Run.count {σ : Type} (r : Run σ) (k : Kind) : Nat := r.kinds.count k

/-- The stage calls of a run, in order. -/
def Run.stages {σ : Type} (r : Run σ) : List Kind := r.kinds.filter Kind.isStage

/-- The run returned `e` wrapped by `errors.Wrap` with `message`, an error that
`errors.Is` relates to `e`. -/
def Run.failsWith {σ : Type} (r : Run σ) (e : GoError) (message : String) : Prop :=
  r.err = some (GoError.wrap e message) ∧ errorsIs (GoError.wrap e message) e = true

/-! ## `LocalConverter` -/

/-- The collaborators reached through the fields of `LocalConverter`
(`client`, `rule`, `cfg`/`snapshotter`, `driver`, `worker`) and the metrics recorder
`metrics.Conversion`. -/
structure LocalConverter (σ : Type) where
  /-- The method `cvt.client.WithLease(ctx)`. -/
  clientWithLease : Context → σ → Except GoError (Context × Done σ) × σ
  /-- The method `cvt.rule.Map(source)`. -/
  ruleMap : Reference → σ → Except GoError Reference × σ
  /-- The call `content.NewLocalProvider(&cvt.cfg.Provider, cvt.client, cvt.snapshotter)`. -/
  NewLocalProvider : σ → Except GoError Provider × σ
  /-- The method `content.Pull(ctx, source)`. -/
  contentPull : Provider → Context → Reference → σ → Option GoError × σ
  /-- The method `cvt.driver.Convert(ctx, content)`. -/
  driverConvert : Context → Provider → σ → Except GoError Descriptor × σ
  /-- The method `content.Push(ctx, *desc, target)`. -/
  contentPush : Provider → Context → Descriptor → Reference → σ → Option GoError × σ
  /-- The method `cvt.worker.Dispatch(job)`. -/
  workerDispatch : Job σ → σ → σ
  /-- The method `metrics.Conversion.OpWrap(op, tag)`. -/
  OpWrap : Job σ → String → σ → Option GoError × σ

/-- Lines 103-129 of `Convert`: the stages run once a target is resolved. -/
def convertStages {σ : Type} (cvt : LocalConverter σ) (ctx : Context)
    (source target : Reference) (s : σ) : Run σ :=
  match cvt.NewLocalProvider s with
  | (Except.error err, s1) =>
      ⟨errorsWrap (some err) "create content provider", s1, [Call.newLocalProvider]⟩
  | (Except.ok content, s1) =>
    match cvt.contentPull content ctx source s1 with
    | (some err, s2) =>
        ⟨errorsWrap (some err) "pull image", s2,
          [Call.newLocalProvider, Call.pull content ctx source]⟩
    | (none, s2) =>
      match cvt.driverConvert ctx content s2 with
      | (Except.error err, s3) =>
          ⟨errorsWrap (some err) "convert image", s3,
            [Call.newLocalProvider, Call.pull content ctx source,
             Call.driverConvert ctx content]⟩
      | (Except.ok desc, s3) =>
        match cvt.contentPush content ctx desc target s3 with
        | (some err, s4) =>
            ⟨errorsWrap (some err) "push image", s4,
              [Call.newLocalProvider, Call.pull content ctx source,
               Call.driverConvert ctx content, Call.push content ctx desc target]⟩
        | (none, s4) =>
            ⟨none, s4,
              [Call.newLocalProvider, Call.pull content ctx source,
               Call.driverConvert ctx content, Call.push content ctx desc target]⟩

/-- Lines 94-129 of `Convert`: the body that runs between the registration of the
deferred release and the release itself. -/
def convertBody {σ : Type} (cvt : LocalConverter σ) (ctx : Context)
    (source : Reference) (s : σ) : Run σ :=
  match cvt.ruleMap source s with
  | (Except.error err, s1) =>
      if errorsIs err ErrAlreadyConverted then
        ⟨none, s1, [Call.ruleMap source]⟩
      else
        ⟨errorsWrap (some err) "create target reference by rule", s1, [Call.ruleMap source]⟩
  | (Except.ok target, s1) =>
      let r := convertStages cvt ctx source target s1
      ⟨r.err, r.state, Call.ruleMap source :: r.calls⟩

/-- The method `LocalConverter.Convert(ctx, source)`.  A failed `WithLease` returns
before the `defer`; otherwise `ctx` is rebound to the leased context, the body runs
and the deferred `done(ctx)` runs last, its own result being dropped. -/
def Convert {σ : Type} (cvt : LocalConverter σ) (ctx : Context)
    (source : Reference) (s : σ) : Run σ :=
  match cvt.clientWithLease ctx s with
  | (Except.error err, s1) =>
      ⟨errorsWrap (some err) "create containerd lease", s1, [Call.withLease ctx]⟩
  | (Except.ok (leased, done), s1) =>
      let r := convertBody cvt leased source s1
      ⟨r.err, (done leased r.state).2, Call.withLease ctx :: (r.calls ++ [Call.done leased])⟩

/-- The closure `func() error { return cvt.Convert(context.Background(), ref) }`. -/
def convertJob {σ : Type} (cvt : LocalConverter σ) (ref : Reference) : Job σ :=
  fun s => (Convert cvt Context.background ref s).toJob

/-- The closure handed to the worker by the asynchronous branch of `Dispatch`:
the conversion inside `metrics.Conversion.OpWrap` under the tag `"convert"`. -/
def dispatchJob {σ : Type} (cvt : LocalConverter σ) (ref : Reference) : Job σ :=
  fun s => cvt.OpWrap (convertJob cvt ref) "convert" s

/-- The method `LocalConverter.Dispatch(ctx, ref, sync)`. -/
def Dispatch {σ : Type} (cvt : LocalConverter σ) (_ctx : Context)
    (ref : Reference) (sync : Bool) (s : σ) : Run σ :=
  if sync then
    Convert cvt Context.background ref s
  else
    ⟨none, cvt.workerDispatch (dispatchJob cvt ref) s, [Call.workerDispatch]⟩

/-! ## A scripted converter

A concrete `LocalConverter` over a world that counts the collaborator calls made,
with every collaborator's outcome fixed by a script. -/

/-- Outcomes fixed in advance for each collaborator. -/
structure Script where
  leaseErr : Option GoError
  mapRes : Except GoError Reference
  providerErr : Option GoError
  pullErr : Option GoError
  convertErr : Option GoError
  pushErr : Option GoError
  /-- Whether the worker runs a submitted job at once instead of queueing it. -/
  runsAtOnce : Bool

/-- The context that the scripted lease manager returns. -/
def leasedOf (ctx : Context) : Context := Context.derived ctx "lease"

/-- The provider that the scripted `NewLocalProvider` returns. -/
def scriptedProvider : Provider := ⟨7⟩

/-- The descriptor that the scripted driver returns. -/
def scriptedDesc : Descriptor := ⟨"sha256:converted"⟩

/-- The converter following a script; the world is the number of collaborator
calls made so far. -/
def scripted (sc : Script) : LocalConverter Nat where
  clientWithLease := fun ctx n =>
    match sc.leaseErr with
    | some e => (Except.error e, n + 1)
    | none => (Except.ok (leasedOf ctx, fun _ m => (none, m + 1)), n + 1)
  ruleMap := fun _ n => (sc.mapRes, n + 1)
  NewLocalProvider := fun n =>
    match sc.providerErr with
    | some e => (Except.error e, n + 1)
    | none => (Except.ok scriptedProvider, n + 1)
  contentPull := fun _ _ _ n => (sc.pullErr, n + 1)
  driverConvert := fun _ _ n =>
    match sc.convertErr with
    | some e => (Except.error e, n + 1)
    | none => (Except.ok scriptedDesc, n + 1)
  contentPush := fun _ _ _ _ n => (sc.pushErr, n + 1)
  workerDispatch := fun job n => if sc.runsAtOnce then (job n).2 else n + 1
  OpWrap := fun op _ n => op n

/-- The script in which every collaborator succeeds and the rule maps to `target`. -/
def okScript (target : Reference) : Script :=
  ⟨none, Except.ok target, none, none, none, none, false⟩

/-- A script whose lease manager fails while the resolver reports already-converted. -/
def leaseFailScript : Script :=
  ⟨some (GoError.sentinel "lease unavailable"), Except.error ErrAlreadyConverted,
    none, none, none, none, false⟩

/-- A script whose resolver reports already-converted, wrapped once. -/
def convertedScript : Script :=
  ⟨none, Except.error (GoError.wrap ErrAlreadyConverted "map"), none, none, none, none, false⟩

/-- A script whose resolver fails with another error. -/
def noRuleScript : Script :=
  ⟨none, Except.error (GoError.sentinel "no matching rule"), none, none, none, none, false⟩

/-- A script whose pull fails. -/
def pullFailScript : Script :=
  ⟨none, Except.ok "registry/app:v1-accelerated", none,
    some (GoError.sentinel "pull refused"), none, none, false⟩

/-- A script whose driver fails, with a worker that runs submitted jobs at once. -/
def driverFailScript : Script :=
  ⟨none, Except.ok "registry/app:v1-accelerated", none, none,
    some (GoError.sentinel "driver crashed"), none, true⟩

/-! ## Facts about errors and about the body of `Convert` -/

theorem errorsIs_self (e : GoError) : errorsIs e e = true := by
  cases e <;> simp [errorsIs]

theorem errorsIs_wrap_cause (e : GoError) (message : String) :
    errorsIs (GoError.wrap e message) e = true := by
  simp [errorsIs, errorsIs_self]

theorem convertStages_kinds_ordered {σ : Type} (cvt : LocalConverter σ) (ctx : Context)
    (source target : Reference) (s : σ) :
    (convertStages cvt ctx source target s).kinds
      <+: [Kind.provider, Kind.pull, Kind.convert, Kind.push] := by
  unfold convertStages Run.kinds
  repeat' split
  all_goals (simp only [List.map, Call.kind]; decide)

theorem convertStages_all_stage {σ : Type} (cvt : LocalConverter σ) (ctx : Context)
    (source target : Reference) (s : σ) :
    ∀ k ∈ (convertStages cvt ctx source target s).kinds, k.isStage = true := by
  intro k hk
  have h := (convertStages_kinds_ordered cvt ctx source target s).subset hk
  simp at h
  rcases h with h | h | h | h <;> subst h <;> rfl

theorem convertBody_kinds {σ : Type} (cvt : LocalConverter σ) (ctx : Context)
    (source : Reference) (s : σ) :
    ∀ k ∈ (convertBody cvt ctx source s).kinds, k.isPipeline = true := by
  intro k hk
  unfold convertBody Run.kinds at hk
  split at hk
  · split at hk <;> simp [Call.kind] at hk <;> subst hk <;> rfl
  · rename_i target s1 _
    simp only [List.map_cons, List.mem_cons] at hk
    rcases hk with hk | hk
    · subst hk; rfl
    · have h := convertStages_all_stage cvt ctx source target s1 k hk
      cases k <;> simp_all [Kind.isPipeline, Kind.isStage]

theorem Convert_kinds_of_lease {σ : Type} (cvt : LocalConverter σ) (ctx : Context)
    (source : Reference) (s : σ) (leased : Context) (done : Done σ) (s1 : σ)
    (hl : cvt.clientWithLease ctx s = (Except.ok (leased, done), s1)) :
    (Convert cvt ctx source s).calls =
      Call.withLease ctx :: ((convertBody cvt leased source s1).calls ++ [Call.done leased])
    ∧ (Convert cvt ctx source s).err = (convertBody cvt leased source s1).err := by
  simp [Convert, hl]

theorem Convert_kinds_of_failed_lease {σ : Type} (cvt : LocalConverter σ) (ctx : Context)
    (source : Reference) (s : σ) (e : GoError) (s1 : σ)
    (hl : cvt.clientWithLease ctx s = (Except.error e, s1)) :
    (Convert cvt ctx source s).calls = [Call.withLease ctx]
    ∧ (Convert cvt ctx source s).err = errorsWrap (some e) "create containerd lease" := by
  simp [Convert, hl]

theorem convertBody_already_converted {σ : Type} (cvt : LocalConverter σ) (ctx : Context)
    (source : Reference) (s : σ) (e : GoError)
    (hm : (cvt.ruleMap source s).1 = Except.error e)
    (he : errorsIs e ErrAlreadyConverted = true) :
    (convertBody cvt ctx source s).err = none
    ∧ (convertBody cvt ctx source s).calls = [Call.ruleMap source] := by
  rcases hr : cvt.ruleMap source s with ⟨res, s1⟩
  rw [hr] at hm
  simp only at hm
  subst hm
  simp [convertBody, hr, he]

/-! ## The claims -/

/-- C1, as stated, fails: the scripted resolver reports already-converted for the
reference at every state, yet `Convert` returns the wrapped lease error, not nil,
because the lease manager failed before the resolver was consulted. -/
theorem Convert_already_converted_needs_lease :
    (∀ s1 : Nat, ∃ e, ((scripted leaseFailScript).ruleMap "registry/app:v1-accelerated" s1).1
        = Except.error e ∧ errorsIs e ErrAlreadyConverted = true)
    ∧ (Convert (scripted leaseFailScript) Context.background
        "registry/app:v1-accelerated" 0).err
      = some (GoError.wrap (GoError.sentinel "lease unavailable") "create containerd lease") :=
  ⟨fun _ => ⟨ErrAlreadyConverted, rfl, by decide⟩, rfl⟩

/-- C1, amended: when the resolver reports already-converted for the source (an error
that is, or wraps, `ErrAlreadyConverted`), `Convert` makes no provider-construction,
pull, driver or push call, and whenever the lease is acquired it returns nil after
exactly the calls lease, Map, release. -/
theorem Convert_already_converted {σ : Type} (cvt : LocalConverter σ) (ctx : Context)
    (source : Reference) (s : σ)
    (hm : ∀ s1, ∃ e, (cvt.ruleMap source s1).1 = Except.error e
        ∧ errorsIs e ErrAlreadyConverted = true) :
    (∀ k ∈ (Convert cvt ctx source s).kinds, k.isStage = false)
    ∧ (∀ leased done s1, cvt.clientWithLease ctx s = (Except.ok (leased, done), s1) →
        (Convert cvt ctx source s).err = none
        ∧ (Convert cvt ctx source s).calls
            = [Call.withLease ctx, Call.ruleMap source, Call.done leased]) := by
  have key : ∀ leased done s1, cvt.clientWithLease ctx s = (Except.ok (leased, done), s1) →
      (Convert cvt ctx source s).err = none
      ∧ (Convert cvt ctx source s).calls
          = [Call.withLease ctx, Call.ruleMap source, Call.done leased] := by
    intro leased done s1 hl
    obtain ⟨e, hme, he⟩ := hm s1
    obtain ⟨hc, herr⟩ := Convert_kinds_of_lease cvt ctx source s leased done s1 hl
    obtain ⟨hb, hbc⟩ := convertBody_already_converted cvt leased source s1 e hme he
    exact ⟨herr.trans hb, by rw [hc, hbc]; rfl⟩
  refine ⟨?_, key⟩
  intro k hk
  rcases hl : cvt.clientWithLease ctx s with ⟨res, s1⟩
  cases res with
  | error e =>
    have h := (Convert_kinds_of_failed_lease cvt ctx source s e s1 hl).1
    simp only [Run.kinds, h, List.map, List.mem_singleton] at hk
    subst hk; rfl
  | ok pair =>
    obtain ⟨leased, done⟩ := pair
    have h := (key leased done s1 hl).2
    simp only [Run.kinds, h, List.map, List.mem_cons, Call.kind] at hk
    rcases hk with hk | hk | hk | hk
    · subst hk; rfl
    · subst hk; rfl
    · subst hk; rfl
    · simp at hk

/-- Witness of C1, amended: the scripted resolver reports a wrapped `ErrAlreadyConverted`
and the lease is acquired; `Convert` returns nil after lease, Map and release only. -/
theorem Convert_already_converted_witness :
    (Convert (scripted convertedScript) Context.background
        "registry/app:v1-accelerated" 0).err = none
    ∧ (Convert (scripted convertedScript) Context.background
        "registry/app:v1-accelerated" 0).calls
          = [Call.withLease Context.background, Call.ruleMap "registry/app:v1-accelerated",
             Call.done (leasedOf Context.background)] :=
  (Convert_already_converted (scripted convertedScript) Context.background
    "registry/app:v1-accelerated" 0
    (fun _ => ⟨GoError.wrap ErrAlreadyConverted "map", rfl, by decide⟩)).2 _ _ _ rfl

/-- C2, as stated, fails: when the lease manager fails, `Convert` returns before the
release is deferred and the release function is never invoked. -/
theorem Convert_release_count_lease_failure :
    ((scripted leaseFailScript).clientWithLease Context.background 0).1
      = Except.error (GoError.sentinel "lease unavailable")
    ∧ (Convert (scripted leaseFailScript) Context.background "registry/app:v1" 0).count
        Kind.release = 0 :=
  ⟨rfl, by decide⟩

/-- C2, amended: `Convert` invokes the release function exactly once on every exit path
on which the lease was acquired (already-converted skip, failure of rule resolution,
of provider construction, of pull, of convert, of push, and full success), and not at
all when lease acquisition fails. -/
theorem Convert_release_count {σ : Type} (cvt : LocalConverter σ) (ctx : Context)
    (source : Reference) (s : σ) :
    (Convert cvt ctx source s).count Kind.release =
      match (cvt.clientWithLease ctx s).1 with
      | Except.ok _ => 1
      | Except.error _ => 0 := by
  rcases hl : cvt.clientWithLease ctx s with ⟨res, s1⟩
  cases res with
  | error e =>
    have h := (Convert_kinds_of_failed_lease cvt ctx source s e s1 hl).1
    simp [Run.count, Run.kinds, h, Call.kind]
  | ok pair =>
    obtain ⟨leased, done⟩ := pair
    have h := (Convert_kinds_of_lease cvt ctx source s leased done s1 hl).1
    have hb : List.count Kind.release (convertBody cvt leased source s1).kinds = 0 := by
      rw [List.count_eq_zero]
      intro hmem
      have := convertBody_kinds cvt leased source s1 _ hmem
      simp [Kind.isPipeline, Kind.isStage] at this
    simp only [Run.kinds] at hb
    simp [Run.count, Run.kinds, h, Call.kind, hb]

/-- C3: `Dispatch(ctx, ref, true)` is `Convert(context.Background(), ref)`: the same
returned error (not wrapped again), the same collaborator calls and the same effect
on the world; nothing is submitted to the worker queue; and the run is the same
for every caller context. -/
theorem Dispatch_sync {σ : Type} (cvt : LocalConverter σ) (ctx : Context)
    (ref : Reference) (s : σ) :
    Dispatch cvt ctx ref true s = Convert cvt Context.background ref s
    ∧ (Dispatch cvt ctx ref true s).count Kind.dispatch = 0
    ∧ (∀ ctx2 : Context, Dispatch cvt ctx2 ref true s = Dispatch cvt ctx ref true s) := by
  refine ⟨rfl, ?_, fun _ => rfl⟩
  show (Convert cvt Context.background ref s).count Kind.dispatch = 0
  rcases hl : cvt.clientWithLease Context.background s with ⟨res, s1⟩
  cases res with
  | error e =>
    have h := (Convert_kinds_of_failed_lease cvt _ ref s e s1 hl).1
    simp [Run.count, Run.kinds, h, Call.kind]
  | ok pair =>
    obtain ⟨leased, done⟩ := pair
    have h := (Convert_kinds_of_lease cvt _ ref s leased done s1 hl).1
    have hb : List.count Kind.dispatch (convertBody cvt leased ref s1).kinds = 0 := by
      rw [List.count_eq_zero]
      intro hmem
      have := convertBody_kinds cvt leased ref s1 _ hmem
      simp [Kind.isPipeline, Kind.isStage] at this
    simp only [Run.kinds] at hb
    simp [Run.count, Run.kinds, h, Call.kind, hb]

/-- C4: `Dispatch(ctx, ref, false)` returns nil for every converter, context, reference
and world, whatever the collaborators do, and so also when the worker runs the job at
once and the conversion fails. -/
theorem Dispatch_async_returns_nil {σ : Type} (cvt : LocalConverter σ) (ctx : Context)
    (ref : Reference) (s : σ) :
    (Dispatch cvt ctx ref false s).err = none :=
  rfl

/-- C5: when `WithLease` fails with `e`, `Convert` returns `e` wrapped with
"create containerd lease", an error that `errors.Is` relates to `e`, and the lease
call is the only collaborator call: no Map, provider construction, pull, driver
or push call is made. -/
theorem Convert_lease_failure {σ : Type} (cvt : LocalConverter σ) (ctx : Context)
    (source : Reference) (s : σ) (e : GoError) (s1 : σ)
    (hl : cvt.clientWithLease ctx s = (Except.error e, s1)) :
    (Convert cvt ctx source s).err = some (GoError.wrap e "create containerd lease")
    ∧ errorsIs (GoError.wrap e "create containerd lease") e = true
    ∧ (Convert cvt ctx source s).calls = [Call.withLease ctx]
    ∧ (∀ k ∈ (Convert cvt ctx source s).kinds, k.isPipeline = false) := by
  obtain ⟨hc, herr⟩ := Convert_kinds_of_failed_lease cvt ctx source s e s1 hl
  refine ⟨herr, errorsIs_wrap_cause _ _, hc, ?_⟩
  intro k hk
  simp only [Run.kinds, hc, List.map, List.mem_singleton, Call.kind] at hk
  subst hk; rfl

/-- Witness of C5: the scripted lease manager fails. -/
theorem Convert_lease_failure_witness :
    (Convert (scripted leaseFailScript) Context.background "registry/app:v1" 0).err
      = some (GoError.wrap (GoError.sentinel "lease unavailable") "create containerd lease")
    ∧ errorsIs (GoError.wrap (GoError.sentinel "lease unavailable") "create containerd lease")
        (GoError.sentinel "lease unavailable") = true
    ∧ (Convert (scripted leaseFailScript) Context.background "registry/app:v1" 0).calls
        = [Call.withLease Context.background]
    ∧ (∀ k ∈ (Convert (scripted leaseFailScript) Context.background
        "registry/app:v1" 0).kinds, k.isPipeline = false) :=
  Convert_lease_failure (scripted leaseFailScript) Context.background "registry/app:v1" 0
    (GoError.sentinel "lease unavailable") 1 rfl

/-- C6: when the lease is acquired and Map fails with an error `e` that is not the
already-converted condition, `Convert` returns `e` wrapped with
"create target reference by rule", an error that `errors.Is` relates to `e`, after
exactly the calls lease, Map, release: no provider construction, pull, driver or
push call is made. -/
theorem Convert_map_failure {σ : Type} (cvt : LocalConverter σ) (ctx : Context)
    (source : Reference) (s : σ) (leased : Context) (done : Done σ) (s1 : σ)
    (e : GoError) (s2 : σ)
    (hl : cvt.clientWithLease ctx s = (Except.ok (leased, done), s1))
    (hm : cvt.ruleMap source s1 = (Except.error e, s2))
    (he : errorsIs e ErrAlreadyConverted = false) :
    (Convert cvt ctx source s).err
      = some (GoError.wrap e "create target reference by rule")
    ∧ errorsIs (GoError.wrap e "create target reference by rule") e = true
    ∧ (Convert cvt ctx source s).calls
        = [Call.withLease ctx, Call.ruleMap source, Call.done leased]
    ∧ (∀ k ∈ (Convert cvt ctx source s).kinds, k.isStage = false) := by
  obtain ⟨hc, herr⟩ := Convert_kinds_of_lease cvt ctx source s leased done s1 hl
  have hb : (convertBody cvt leased source s1).err
        = some (GoError.wrap e "create target reference by rule")
      ∧ (convertBody cvt leased source s1).calls = [Call.ruleMap source] := by
    simp [convertBody, hm, he, errorsWrap]
  have hcalls : (Convert cvt ctx source s).calls
      = [Call.withLease ctx, Call.ruleMap source, Call.done leased] := by
    rw [hc, hb.2]; rfl
  refine ⟨herr.trans hb.1, errorsIs_wrap_cause _ _, hcalls, ?_⟩
  intro k hk
  simp only [Run.kinds, hcalls, List.map, List.mem_cons, Call.kind] at hk
  rcases hk with hk | hk | hk | hk
  · subst hk; rfl
  · subst hk; rfl
  · subst hk; rfl
  · simp at hk

/-- Witness of C6: the scripted resolver fails with "no matching rule". -/
theorem Convert_map_failure_witness :
    (Convert (scripted noRuleScript) Context.background "registry/app:v1" 0).err
      = some (GoError.wrap (GoError.sentinel "no matching rule")
          "create target reference by rule")
    ∧ errorsIs (GoError.wrap (GoError.sentinel "no matching rule")
          "create target reference by rule") (GoError.sentinel "no matching rule") = true
    ∧ (Convert (scripted noRuleScript) Context.background "registry/app:v1" 0).calls
        = [Call.withLease Context.background, Call.ruleMap "registry/app:v1",
           Call.done (leasedOf Context.background)]
    ∧ (∀ k ∈ (Convert (scripted noRuleScript) Context.background
        "registry/app:v1" 0).kinds, k.isStage = false) :=
  Convert_map_failure (scripted noRuleScript) Context.background "registry/app:v1" 0
    (leasedOf Context.background) (fun _ m => (none, m + 1)) 1
    (GoError.sentinel "no matching rule") 2 rfl rfl (by decide)

/-- C7: once the lease is acquired and a target is resolved, the stage calls of
`Convert` form a prefix of provider construction, pull, driver, push (that order,
each at most once), and the first stage to fail ends the run: `Convert` returns that
stage's error wrapped with that stage's message, and the calls made are exactly
those up to the failing stage followed by the release. -/
theorem Convert_stage_failure {σ : Type} (cvt : LocalConverter σ) (ctx : Context)
    (source : Reference) (s : σ) (leased : Context) (done : Done σ) (s1 : σ)
    (target : Reference) (s2 : σ)
    (hl : cvt.clientWithLease ctx s = (Except.ok (leased, done), s1))
    (hm : cvt.ruleMap source s1 = (Except.ok target, s2)) :
    (Convert cvt ctx source s).stages <+: [Kind.provider, Kind.pull, Kind.convert, Kind.push]
    ∧ (∀ e s3, cvt.NewLocalProvider s2 = (Except.error e, s3) →
        (Convert cvt ctx source s).failsWith e "create content provider"
        ∧ (Convert cvt ctx source s).calls
            = [Call.withLease ctx, Call.ruleMap source, Call.newLocalProvider,
               Call.done leased])
    ∧ (∀ content s3 e s4, cvt.NewLocalProvider s2 = (Except.ok content, s3) →
        cvt.contentPull content leased source s3 = (some e, s4) →
        (Convert cvt ctx source s).failsWith e "pull image"
        ∧ (Convert cvt ctx source s).calls
            = [Call.withLease ctx, Call.ruleMap source, Call.newLocalProvider,
               Call.pull content leased source, Call.done leased])
    ∧ (∀ content s3 s4 e s5, cvt.NewLocalProvider s2 = (Except.ok content, s3) →
        cvt.contentPull content leased source s3 = (none, s4) →
        cvt.driverConvert leased content s4 = (Except.error e, s5) →
        (Convert cvt ctx source s).failsWith e "convert image"
        ∧ (Convert cvt ctx source s).calls
            = [Call.withLease ctx, Call.ruleMap source, Call.newLocalProvider,
               Call.pull content leased source, Call.driverConvert leased content,
               Call.done leased])
    ∧ (∀ content s3 s4 desc s5 e s6, cvt.NewLocalProvider s2 = (Except.ok content, s3) →
        cvt.contentPull content leased source s3 = (none, s4) →
        cvt.driverConvert leased content s4 = (Except.ok desc, s5) →
        cvt.contentPush content leased desc target s5 = (some e, s6) →
        (Convert cvt ctx source s).failsWith e "push image"
        ∧ (Convert cvt ctx source s).calls
            = [Call.withLease ctx, Call.ruleMap source, Call.newLocalProvider,
               Call.pull content leased source, Call.driverConvert leased content,
               Call.push content leased desc target, Call.done leased]) := by
  obtain ⟨hc, herr⟩ := Convert_kinds_of_lease cvt ctx source s leased done s1 hl
  have hbc : (convertBody cvt leased source s1).calls
      = Call.ruleMap source :: (convertStages cvt leased source target s2).calls := by
    simp [convertBody, hm]
  have hbe : (convertBody cvt leased source s1).err
      = (convertStages cvt leased source target s2).err := by
    simp [convertBody, hm]
  rw [hbc] at hc
  rw [hbe] at herr
  refine ⟨?_, ?_, ?_, ?_, ?_⟩
  · have hp := convertStages_kinds_ordered cvt leased source target s2
    have hall := convertStages_all_stage cvt leased source target s2
    have hs : (Convert cvt ctx source s).stages
        = (convertStages cvt leased source target s2).kinds := by
      simp only [Run.stages, Run.kinds, hc, List.map_cons, List.map_append, List.filter_cons,
        List.filter_append, Call.kind, Kind.isStage, List.map_nil, List.filter_nil]
      simp only [Run.kinds] at hall
      simpa using hall
    rw [hs]; exact hp
  · intro e s3 hp
    refine ⟨⟨?_, errorsIs_wrap_cause _ _⟩, ?_⟩
    · rw [herr]; simp [convertStages, hp, errorsWrap]
    · rw [hc]; simp [convertStages, hp]
  · intro content s3 e s4 hp hpull
    refine ⟨⟨?_, errorsIs_wrap_cause _ _⟩, ?_⟩
    · rw [herr]; simp [convertStages, hp, hpull, errorsWrap]
    · rw [hc]; simp [convertStages, hp, hpull]
  · intro content s3 s4 e s5 hp hpull hconv
    refine ⟨⟨?_, errorsIs_wrap_cause _ _⟩, ?_⟩
    · rw [herr]; simp [convertStages, hp, hpull, hconv, errorsWrap]
    · rw [hc]; simp [convertStages, hp, hpull, hconv]
  · intro content s3 s4 desc s5 e s6 hp hpull hconv hpush
    refine ⟨⟨?_, errorsIs_wrap_cause _ _⟩, ?_⟩
    · rw [herr]; simp [convertStages, hp, hpull, hconv, hpush, errorsWrap]
    · rw [hc]; simp [convertStages, hp, hpull, hconv, hpush]

/-- Witness of C7: the scripted pull fails; the driver and push are not called. -/
theorem Convert_stage_failure_witness :
    (Convert (scripted pullFailScript) Context.background "registry/app:v1" 0).failsWith
        (GoError.sentinel "pull refused") "pull image"
    ∧ (Convert (scripted pullFailScript) Context.background "registry/app:v1" 0).calls
        = [Call.withLease Context.background, Call.ruleMap "registry/app:v1",
           Call.newLocalProvider,
           Call.pull scriptedProvider (leasedOf Context.background) "registry/app:v1",
           Call.done (leasedOf Context.background)] :=
  (Convert_stage_failure (scripted pullFailScript) Context.background "registry/app:v1" 0
    (leasedOf Context.background) (fun _ m => (none, m + 1)) 1
    "registry/app:v1-accelerated" 2 rfl rfl).2.2.1
    scriptedProvider 3 (GoError.sentinel "pull refused") 4 rfl rfl

/-- C8: when the lease is acquired, Map returns `target` and every stage succeeds,
`Convert` returns nil after exactly these calls, in this order, each once: lease,
Map of the source, provider construction, pull of the source on that provider, the
driver on that provider, push of the driver's descriptor to `target`, release;
all pipeline calls run under the leased context. -/
theorem Convert_success {σ : Type} (cvt : LocalConverter σ) (ctx : Context)
    (source : Reference) (s : σ) (leased : Context) (done : Done σ) (s1 : σ)
    (target : Reference) (s2 : σ) (content : Provider) (s3 s4 : σ)
    (desc : Descriptor) (s5 s6 : σ)
    (hl : cvt.clientWithLease ctx s = (Except.ok (leased, done), s1))
    (hm : cvt.ruleMap source s1 = (Except.ok target, s2))
    (hp : cvt.NewLocalProvider s2 = (Except.ok content, s3))
    (hpull : cvt.contentPull content leased source s3 = (none, s4))
    (hconv : cvt.driverConvert leased content s4 = (Except.ok desc, s5))
    (hpush : cvt.contentPush content leased desc target s5 = (none, s6)) :
    (Convert cvt ctx source s).err = none
    ∧ (Convert cvt ctx source s).calls
        = [Call.withLease ctx, Call.ruleMap source, Call.newLocalProvider,
           Call.pull content leased source, Call.driverConvert leased content,
           Call.push content leased desc target, Call.done leased]
    ∧ (Convert cvt ctx source s).state = (done leased s6).2 := by
  simp [Convert, convertBody, convertStages, hl, hm, hp, hpull, hconv, hpush]

/-- Witness of C8: every scripted collaborator succeeds. -/
theorem Convert_success_witness :
    (Convert (scripted (okScript "registry/app:v1-accelerated")) Context.background
        "registry/app:v1" 0).err = none
    ∧ (Convert (scripted (okScript "registry/app:v1-accelerated")) Context.background
        "registry/app:v1" 0).calls
        = [Call.withLease Context.background, Call.ruleMap "registry/app:v1",
           Call.newLocalProvider,
           Call.pull scriptedProvider (leasedOf Context.background) "registry/app:v1",
           Call.driverConvert (leasedOf Context.background) scriptedProvider,
           Call.push scriptedProvider (leasedOf Context.background) scriptedDesc
             "registry/app:v1-accelerated",
           Call.done (leasedOf Context.background)]
    ∧ (Convert (scripted (okScript "registry/app:v1-accelerated")) Context.background
        "registry/app:v1" 0).state = 7 :=
  Convert_success (scripted (okScript "registry/app:v1-accelerated")) Context.background
    "registry/app:v1" 0 (leasedOf Context.background) (fun _ m => (none, m + 1)) 1
    "registry/app:v1-accelerated" 2 scriptedProvider 3 4 scriptedDesc 5 6
    rfl rfl rfl rfl rfl rfl

/-- C9: whenever the lease is acquired, the release is the last collaborator call of
`Convert` and the only release: the calls are some calls without a release, followed
by the release on the leased context, whatever rule resolution and the stages do;
and the world that `Convert` leaves is the one left by the release. -/
theorem Convert_release_last {σ : Type} (cvt : LocalConverter σ) (ctx : Context)
    (source : Reference) (s : σ) (leased : Context) (done : Done σ) (s1 : σ)
    (hl : cvt.clientWithLease ctx s = (Except.ok (leased, done), s1)) :
    (∃ before, (Convert cvt ctx source s).calls = before ++ [Call.done leased]
        ∧ ∀ c ∈ before, c.kind ≠ Kind.release)
    ∧ (Convert cvt ctx source s).calls.getLast? = some (Call.done leased)
    ∧ (Convert cvt ctx source s).count Kind.release = 1
    ∧ (Convert cvt ctx source s).state
        = (done leased (convertBody cvt leased source s1).state).2 := by
  obtain ⟨hc, _⟩ := Convert_kinds_of_lease cvt ctx source s leased done s1 hl
  have hnot : ∀ c ∈ Call.withLease ctx :: (convertBody cvt leased source s1).calls,
      c.kind ≠ Kind.release := by
    intro c hcm hk
    rcases List.mem_cons.mp hcm with h | h
    · subst h; simp [Call.kind] at hk
    · have := convertBody_kinds cvt leased source s1 c.kind
        (by simp only [Run.kinds]; exact List.mem_map_of_mem _ h)
      rw [hk] at this
      simp [Kind.isPipeline, Kind.isStage] at this
  refine ⟨⟨Call.withLease ctx :: (convertBody cvt leased source s1).calls, ?_, hnot⟩,
    ?_, ?_, ?_⟩
  · rw [hc]; rfl
  · rw [hc]
    exact List.getLast?_concat (Call.withLease ctx :: (convertBody cvt leased source s1).calls)
  · have h0 : List.count Kind.release
        ((Call.withLease ctx :: (convertBody cvt leased source s1).calls).map Call.kind)
        = 0 := by
      rw [List.count_eq_zero]
      intro hmem
      obtain ⟨c, hcm, hk⟩ := List.mem_map.mp hmem
      exact hnot c hcm hk
    simp only [List.map_cons] at h0
    simp only [Run.count, Run.kinds, hc, List.map_cons, List.map_append, List.count_cons,
      List.count_append] at h0 ⊢
    simp [Call.kind] at h0 ⊢
    omega
  · simp [Convert, hl]

/-- Witness of C9: the lease is acquired and the scripted driver fails; the release
still comes last. -/
theorem Convert_release_last_witness :
    (∃ before, (Convert (scripted driverFailScript) Context.background
          "registry/app:v1" 0).calls = before ++ [Call.done (leasedOf Context.background)]
        ∧ ∀ c ∈ before, c.kind ≠ Kind.release)
    ∧ (Convert (scripted driverFailScript) Context.background
          "registry/app:v1" 0).calls.getLast? = some (Call.done (leasedOf Context.background))
    ∧ (Convert (scripted driverFailScript) Context.background
          "registry/app:v1" 0).count Kind.release = 1
    ∧ (Convert (scripted driverFailScript) Context.background "registry/app:v1" 0).state
        = ((convertBody (scripted driverFailScript) (leasedOf Context.background)
            "registry/app:v1" 1).state + 1) :=
  Convert_release_last (scripted driverFailScript) Context.background "registry/app:v1" 0
    (leasedOf Context.background) (fun _ m => (none, m + 1)) 1 rfl

/-- C10: `Dispatch(ctx, ref, false)` makes exactly one collaborator call, the
submission of one job to the worker (no lease, Map, provider, pull, driver or push
call of its own), and the world it leaves is the worker's; the submitted job, run at
any world, is the metrics wrapper `OpWrap` applied under the tag "convert" to the
closure that runs `Convert(context.Background(), ref)`, and yields the wrapper's
result. -/
theorem Dispatch_async {σ : Type} (cvt : LocalConverter σ) (ctx : Context)
    (ref : Reference) (s : σ) :
    (Dispatch cvt ctx ref false s).calls = [Call.workerDispatch]
    ∧ (Dispatch cvt ctx ref false s).count Kind.dispatch = 1
    ∧ (∀ k ∈ (Dispatch cvt ctx ref false s).kinds, k = Kind.dispatch)
    ∧ (Dispatch cvt ctx ref false s).state = cvt.workerDispatch (dispatchJob cvt ref) s
    ∧ (∀ s1, dispatchJob cvt ref s1 = cvt.OpWrap (convertJob cvt ref) "convert" s1)
    ∧ (∀ s2, convertJob cvt ref s2
        = ((Convert cvt Context.background ref s2).err,
           (Convert cvt Context.background ref s2).state)) := by
  refine ⟨rfl, ?_, ?_, rfl, fun _ => rfl, fun _ => rfl⟩
  · simp [Dispatch, Run.count, Run.kinds, Call.kind]
  · intro k hk
    simpa [Dispatch, Run.kinds, Call.kind] using hk

/-- An asynchronous dispatch whose worker runs the job at once while the driver fails:
the job itself reports the wrapped driver error, `Dispatch` still returns nil. -/
theorem Dispatch_async_failing_job :
    (dispatchJob (scripted driverFailScript) "registry/app:v1" 0).1
      = some (GoError.wrap (GoError.sentinel "driver crashed") "convert image")
    ∧ (Dispatch (scripted driverFailScript) Context.background "registry/app:v1" false 0).state
      = 6
    ∧ (Dispatch (scripted driverFailScript) Context.background "registry/app:v1" false 0).err
      = none :=
  ⟨rfl, rfl, rfl⟩

end Converter
